import Mathlib

/-!
Verification of the VentureScope scoring pipeline.

Strings are modelled as `List Char` (Python `str`); each definition below is a
shallow embedding of the correspondingly named Python method from the
repository (`src/agents/...`, `src/core/orchestrator.py`).
-/

set_option maxRecDepth 4000

namespace VentureScope

/-- Python `str.strip()` whitespace set (ASCII portion): space, tab, newline,
carriage return, vertical tab, form feed. -/
def isSpaceChar (c : Char) : Bool :=
  c = ' ' || c = '\t' || c = '\n' || c = '\r' || c = '\x0B' || c = '\x0C'

/-- Python `str.strip()`: drop whitespace from both ends. -/
def strip (l : List Char) : List Char :=
  ((l.dropWhile isSpaceChar).reverse.dropWhile isSpaceChar).reverse

/-- Python `needle in hay` substring test. -/
def isSubstr (needle : List Char) : List Char → Bool
  | [] => needle.isEmpty
  | c :: t => needle.isPrefixOf (c :: t) || isSubstr needle t

/-- Python `text.split('\n')`. -/
def splitLines : List Char → List (List Char)
  | [] => [[]]
  | c :: t =>
    let rest := splitLines t
    if c = '\n' then [] :: rest
    else
      match rest with
      | [] => [[c]]
      | h :: r => (c :: h) :: r

/-- The sentinel `"None identified"`. -/
def sentinel : List Char := "None identified".toList

/-- `MemoGeneratorAgent._determine_recommendation` (src/agents/memo_generator.py,
lines 73-97): PASS on any critical flag, else threshold bands on the score. -/
def determine_recommendation (final_score : Int) (critical_flags : List (List Char)) :
    List Char :=
  if critical_flags.length > 0 then "PASS".toList
  else if final_score ≥ 80 then "INVEST".toList
  else if final_score ≥ 65 then "STRONG CONSIDER".toList
  else if final_score ≥ 50 then "CONSIDER".toList
  else "PASS".toList

/-- Recommendation function as described by the spec (section 4.2), written
independently from the spec's words for comparison. -/
def claimRecommendation (final_score : Int) (critical_flags : List (List Char)) :
    List Char :=
  if critical_flags ≠ [] then "PASS".toList
  else if 80 ≤ final_score then "INVEST".toList
  else if 65 ≤ final_score then "STRONG CONSIDER".toList
  else if 50 ≤ final_score then "CONSIDER".toList
  else "PASS".toList

/-- `VentureScopeOrchestrator._calculate_final_score` (src/core/orchestrator.py,
lines 158-182): market + team + financial + execution lookup, clamped to [0,100]. -/
def calculate_final_score (market_score team_score financial_score : Int)
    (risk_level : List Char) : Int :=
  let execution_score : Int :=
    if risk_level = "LOW".toList then 25
    else if risk_level = "MEDIUM".toList then 18
    else if risk_level = "HIGH".toList then 12
    else if risk_level = "CRITICAL".toList then 5
    else 15
  min (max (market_score + team_score + financial_score + execution_score) 0) 100

/-- Execution-proxy lookup table exactly as the spec states it (section 4.2):
`{LOW:25, MEDIUM:18, HIGH:12, CRITICAL:5}` defaulting to 15. -/
def claimExecTable (risk_level : List Char) : Int :=
  if risk_level = "LOW".toList then 25
  else if risk_level = "MEDIUM".toList then 18
  else if risk_level = "HIGH".toList then 12
  else if risk_level = "CRITICAL".toList then 5
  else 15

/-- `RiskFlaggingAgent._determine_risk_level` (src/agents/risk_flagging.py,
lines 192-212). -/
def determine_risk_level (critical high : List (List Char)) : List Char :=
  if critical.any (fun flag => !(flag == sentinel)) then "CRITICAL".toList
  else if (high.filter (fun r => !(r == sentinel))).length ≥ 3 then "HIGH".toList
  else if (high.filter (fun r => !(r == sentinel))).length ≥ 1 then "MEDIUM".toList
  else "LOW".toList

/-- `RiskFlaggingAgent._identify_critical_flags` (src/agents/risk_flagging.py,
lines 214-221): keep non-sentinel critical entries. -/
def identify_critical_flags (critical : List (List Char)) : List (List Char) :=
  critical.filter (fun flag => !(flag == sentinel))

/-- Risk-level classification exactly as the spec's transition rules state it
(section 4.5), using a count of non-sentinel entries. -/
def claimRiskLevel (critical high : List (List Char)) : List Char :=
  if critical.any (fun flag => !(flag == sentinel)) then "CRITICAL".toList
  else if 3 ≤ high.countP (fun r => !(r == sentinel)) then "HIGH".toList
  else if 1 ≤ high.countP (fun r => !(r == sentinel)) then "MEDIUM".toList
  else "LOW".toList

/-- Acceptance test of `_extract_section`'s inner loop on the line at index
`j`: stripped line non-empty and not starting with the decimal string of `j`
(Python `lines[j].strip() and not lines[j].strip().startswith(str(j))`). -/
def sectionLineOk (j : Nat) (l : List Char) : Bool :=
  !(strip l).isEmpty && !((Nat.repr j).toList.isPrefixOf (strip l))

/-- Inner loop of `_extract_section`: scan lines from index `j` (the list
argument is the suffix of the lines starting at index `j`), returning the
first stripped line accepted by `sectionLineOk`. -/
def sectionInner : List (List Char) → Nat → Option (List Char)
  | [], _ => none
  | l :: rest, j =>
    if sectionLineOk j l then some (strip l) else sectionInner rest (j + 1)

/-- Outer loop of `_extract_section`: at each line containing the header, run
the inner scan on the following lines; with no inner hit, keep scanning for
further header occurrences. -/
def sectionOuter (header : List Char) : List (List Char) → Nat → Option (List Char)
  | [], _ => none
  | l :: rest, i =>
    if isSubstr header l then
      match sectionInner rest (i + 1) with
      | some r => some r
      | none => sectionOuter header rest (i + 1)
    else sectionOuter header rest (i + 1)

/-- `MarketAnalysisAgent._extract_section` (src/agents/market_analysis.py lines
192-201), identical to `TeamAssessmentAgent._extract_section` (lines 187-195)
and `FinancialModelingAgent._extract_section` (lines 197-205). -/
def extract_section (text header : List Char) : List Char :=
  (sectionOuter header (splitLines text) 0).getD ("Not specified".toList)

/-- Section extraction as claim C4 words it: the first non-empty line strictly
after the first occurrence of the header, else the sentinel. -/
def claimExtractSection (text header : List Char) : List Char :=
  let lines := splitLines text
  match lines.findIdx? (fun l => isSubstr header l) with
  | none => "Not specified".toList
  | some i =>
    match (lines.drop (i + 1)).find? (fun l => !(strip l).isEmpty) with
    | some l => strip l
    | none => "Not specified".toList

/-- Python `int` of a run of ASCII digits. -/
def digitsVal (l : List Char) : Nat :=
  l.foldl (fun a c => a * 10 + (c.toNat - 48)) 0

/-- Case-insensitive prefix test against a lowercase pattern (the effect of
`re.IGNORECASE` on the literal alternatives of the score regex). -/
def ciPrefixOf : List Char → List Char → Bool
  | [], _ => true
  | _ :: _, [] => false
  | p :: ps, c :: cs => (c.toLower == p) && ciPrefixOf ps cs

/-- The part of the score regex after the digit group: `\s*(?:/25|points|out
of 25)` with `re.IGNORECASE`.  Greedy whitespace skipping is faithful here
because none of the three alternatives starts with a whitespace character. -/
def scoreSuffixOk (rest : List Char) : Bool :=
  let rest2 := rest.dropWhile isSpaceChar
  ciPrefixOf "/25".toList rest2 || ciPrefixOf "points".toList rest2 ||
    ciPrefixOf "out of 25".toList rest2

/-- Attempted match of `(\d+)\s*(?:/25|points|out of 25)` at a fixed position.
Greedy maximal-run capture is faithful: no alternative starts with a digit, so
regex backtracking inside `\d+` can never succeed where the maximal run
fails. -/
def scoreMatchAt (l : List Char) : Option Nat :=
  match l with
  | [] => none
  | c :: _ =>
    if c.isDigit then
      if scoreSuffixOk (l.dropWhile Char.isDigit) then
        some (digitsVal (l.takeWhile Char.isDigit))
      else none
    else none

/-- `re.search`: try each start position from the left. -/
def scoreSearch : List Char → Option Nat
  | [] => none
  | c :: t =>
    match scoreMatchAt (c :: t) with
    | some n => some n
    | none => scoreSearch t

/-- `MarketAnalysisAgent._extract_score` (src/agents/market_analysis.py lines
203-211), identical to `TeamAssessmentAgent._extract_score` (lines 197-204)
and `FinancialModelingAgent._extract_score` (lines 207-214): first regex
match clamped to [0,25], defaulting to 15. -/
def extract_score (text : List Char) : Nat :=
  match scoreSearch text with
  | some n => min (max n 0) 25
  | none => 15

/-- Attempted match of the claim's pattern `\d{1,3}` (a 1-3 digit number)
followed by the same suffix, greedy with backtracking: lengths 3, 2, 1. -/
def claimTryLen (k : Nat) (l : List Char) : Option Nat :=
  if ((l.take k).length == k) && (l.take k).all Char.isDigit &&
      scoreSuffixOk (l.drop k) then
    some (digitsVal (l.take k))
  else none

/-- Claim-side matcher at a fixed position. -/
def claimScoreMatchAt (l : List Char) : Option Nat :=
  match claimTryLen 3 l with
  | some n => some n
  | none =>
    match claimTryLen 2 l with
    | some n => some n
    | none => claimTryLen 1 l

/-- Claim-side leftmost search for a 1-3 digit number with suffix. -/
def claimScoreSearch : List Char → Option Nat
  | [] => none
  | c :: t =>
    match claimScoreMatchAt (c :: t) with
    | some n => some n
    | none => claimScoreSearch t

/-- Score extraction as claim C5 words it: first occurrence of a 1-3 digit
number followed by the suffix, clamped to [0,25], defaulting to 15. -/
def claimExtractScore (text : List Char) : Nat :=
  match claimScoreSearch text with
  | some n => min (max n 0) 25
  | none => 15

/-- Declarative matcher for the amended claim: a maximal non-empty run of
digits followed by the suffix pattern. -/
def specScoreMatchAt (l : List Char) : Option Nat :=
  let run := l.takeWhile Char.isDigit
  if run.isEmpty then none
  else if scoreSuffixOk (l.drop run.length) then some (digitsVal run)
  else none

/-- The three-character sequence written as the bullet prefix in
src/agents/risk_flagging.py line 170 (bytes C3 A2 E2 82 AC C2 A2, i.e. the
characters U+00E2, U+20AC, U+00A2). -/
def bulletGlyph : List Char := ['â', '€', '¢']

/-- `_extract_list_section`'s loop-break test (line 165): stripped line
non-empty, its first character a digit, and a period anywhere in the line. -/
def breakLineB (l : List Char) : Bool :=
  !(strip l).isEmpty &&
    (match strip l with
     | [] => false
     | c :: _ => c.isDigit) &&
    l.contains '.'

/-- Bullet-item test of `_extract_list_section` (line 170) on a stripped
line. -/
def isBulletLine (s : List Char) : Bool :=
  !s.isEmpty && (['-'].isPrefixOf s || bulletGlyph.isPrefixOf s || ['*'].isPrefixOf s)

/-- Implicit-first-item test of `_extract_list_section` (line 172), apart
from the items-so-far-empty conjunct, on a stripped line. -/
def isImplicitItem (s : List Char) : Bool :=
  !s.isEmpty &&
    !("1.".toList.isPrefixOf s || "2.".toList.isPrefixOf s || "3.".toList.isPrefixOf s)

/-- The loop of `RiskFlaggingAgent._extract_list_section`
(src/agents/risk_flagging.py lines 154-176), with the collected items carried
as a reversed accumulator. -/
def listScanAux (header : List Char) :
    List (List Char) → Bool → List (List Char) → List (List Char)
  | [], _, acc => acc.reverse
  | l :: rest, inSec, acc =>
    if isSubstr header l then listScanAux header rest true acc
    else if inSec then
      if breakLineB l then acc.reverse
      else if isBulletLine (strip l) then
        listScanAux header rest true (strip ((strip l).drop 1) :: acc)
      else if acc.isEmpty && isImplicitItem (strip l) then
        listScanAux header rest true (strip l :: acc)
      else listScanAux header rest true acc
    else listScanAux header rest false acc

/-- `RiskFlaggingAgent._extract_list_section` (src/agents/risk_flagging.py
lines 144-176): collected items, or `["None identified"]` when none. -/
def extract_list_section (text header : List Char) : List (List Char) :=
  let items := listScanAux header (splitLines text) false []
  if items.isEmpty then [sentinel] else items

/-- A numbered header in the sense of claim C6: digits followed by a
period. -/
def claimNumberedHeader (l : List Char) : Bool :=
  let s := strip l
  let run := s.takeWhile Char.isDigit
  !run.isEmpty && ['.'].isPrefixOf (s.drop run.length)

/-- Bullet handling as claim C6 words it: the whole prefix is stripped. -/
def claimBulletItem (s : List Char) : Option (List Char) :=
  if ['-'].isPrefixOf s then some (strip (s.drop 1))
  else if ['*'].isPrefixOf s then some (strip (s.drop 1))
  else if bulletGlyph.isPrefixOf s then some (strip (s.drop bulletGlyph.length))
  else none

/-- Collection loop as claim C6 words it: stop at a numbered header, collect
bullet items with the prefix stripped, accept one implicit unprefixed first
item while nothing has been collected. -/
def claimCollect : List (List Char) → Bool → List (List Char)
  | [], _ => []
  | l :: rest, anyYet =>
    if claimNumberedHeader l then []
    else
      match claimBulletItem (strip l) with
      | some item => item :: claimCollect rest true
      | none =>
        if !(strip l).isEmpty && !anyYet then strip l :: claimCollect rest true
        else claimCollect rest anyYet

/-- List extraction as claim C6 words it. -/
def claimListExtract (text header : List Char) : List (List Char) :=
  let lines := splitLines text
  match lines.findIdx? (fun l => isSubstr header l) with
  | none => [sentinel]
  | some i =>
    let items := claimCollect (lines.drop (i + 1)) false
    if items.isEmpty then [sentinel] else items

/-- Lines after the first line containing the header, if any. -/
def specAfterHeader (header : List Char) : List (List Char) → Option (List (List Char))
  | [] => none
  | l :: rest => if isSubstr header l then some rest else specAfterHeader header rest

/-- Direct (non-accumulator) form of the collection loop, for the amended
claim: runs only on the lines after the first header occurrence. -/
def specCollect (header : List Char) : List (List Char) → Bool → List (List Char)
  | [], _ => []
  | l :: rest, anyYet =>
    if isSubstr header l then specCollect header rest anyYet
    else if breakLineB l then []
    else if isBulletLine (strip l) then
      strip ((strip l).drop 1) :: specCollect header rest true
    else if !anyYet && isImplicitItem (strip l) then
      strip l :: specCollect header rest true
    else specCollect header rest anyYet

/-- List extraction restated for the amended claim C6. -/
def specListExtract (text header : List Char) : List (List Char) :=
  match specAfterHeader header (splitLines text) with
  | none => [sentinel]
  | some rest =>
    let items := specCollect header rest false
    if items.isEmpty then [sentinel] else items

/-- An entry of `_parse_team_members`' output (a `{name, role}` record). -/
structure TeamMember where
  name : List Char
  role : List Char

/-- `TeamAssessmentAgent._calculate_team_score` (src/agents/team_assessment.py
lines 206-220): base score −5 (floored at 0) with no team members, +2 (capped
at 25) with 3 or more. -/
def calculate_team_score (base : Int) (team_members : List TeamMember) : Int :=
  if team_members.length = 0 then max (base - 5) 0
  else if team_members.length ≥ 3 then min (base + 2) 25
  else base

/-- `FinancialModelingAgent._calculate_financial_score`
(src/agents/financial_modeling.py lines 216-230): +3 when a revenue metric was
parsed and +2 when a growth-rate metric was parsed, each capped at 25. -/
def calculate_financial_score (base : Int) (revenue growth_rate : Bool) : Int :=
  let b1 := if revenue then min (base + 3) 25 else base
  if growth_rate then min (b1 + 2) 25 else b1

/-- `MemoGeneratorAgent._generate_fallback_memo` (src/agents/memo_generator.py
lines 209-230); the date argument stands for `datetime.now().strftime(...)`. -/
def generate_fallback_memo (company_name : List Char) (final_score : Nat)
    (recommendation date : List Char) : List Char :=
  "# Investment Memo: ".toList ++ company_name ++
    "\n\n## Executive Summary\n**Investment Score:** ".toList ++
    (Nat.repr final_score).toList ++
    "/100 | **Recommendation:** ".toList ++ recommendation ++
    "\n\nAnalysis completed but detailed memo generation encountered an error.\nPlease review individual agent reports for detailed insights.\n\n## Recommendation\n**".toList ++
    recommendation ++
    "**\n\nBased on quantitative scoring: ".toList ++ (Nat.repr final_score).toList ++
    "/100\n\n---\n*Memo generated by VentureScope AI | ".toList ++ date ++
    "*\n".toList

/-- `MemoGeneratorAgent._generate_memo` (src/agents/memo_generator.py lines
99-207), restricted to its try/except tail: the generation collaborator's
outcome is passed in as an `Except`; on failure the fallback memo is
returned. -/
def generate_memo (llm_response : Except (List Char) (List Char))
    (company_name : List Char) (final_score : Nat)
    (recommendation date : List Char) : List Char :=
  match llm_response with
  | .ok memo => memo
  | .error _ => generate_fallback_memo company_name final_score recommendation date

/-- The parsed risk-assessment record built by
`RiskFlaggingAgent._generate_risk_assessment`. -/
structure RiskAssessment where
  critical_flags : List (List Char)
  high_risks : List (List Char)
  medium_risks : List (List Char)
  low_risks : List (List Char)
  mitigation : List (List Char)

/-- `RiskFlaggingAgent._generate_risk_assessment` (src/agents/risk_flagging.py
lines 72-142): parse the response's sections on success; on any LLM failure
return the fixed fallback whose only critical flag is
"Analysis failed - unable to assess risks". -/
def generate_risk_assessment (llm_response : Except (List Char) (List Char)) :
    RiskAssessment :=
  match llm_response with
  | .ok response =>
    { critical_flags := extract_list_section response "CRITICAL RED FLAGS".toList
      high_risks := extract_list_section response "HIGH RISKS".toList
      medium_risks := extract_list_section response "MEDIUM RISKS".toList
      low_risks := extract_list_section response "LOW RISKS".toList
      mitigation := extract_list_section response "RISK MITIGATION".toList }
  | .error _ =>
    { critical_flags := ["Analysis failed - unable to assess risks".toList]
      high_risks := []
      medium_risks := []
      low_risks := []
      mitigation := [] }

/-- The `risk_level`/`critical_flags` pair `RiskFlaggingAgent.process` puts in
its result (src/agents/risk_flagging.py lines 62-67). -/
structure RiskOutput where
  risk_level : List Char
  critical_flags : List (List Char)

/-- Risk-level and critical-flag computation of `RiskFlaggingAgent.process`:
categorization (lines 178-190) is the identity on the two lists used. -/
def risk_process (llm_response : Except (List Char) (List Char)) : RiskOutput :=
  let ra := generate_risk_assessment llm_response
  { risk_level := determine_risk_level ra.critical_flags ra.high_risks
    critical_flags := identify_critical_flags ra.critical_flags }

/-- Company data threaded through the pipeline (the fields of it the
orchestrator reads). -/
structure CompanyData where
  company_name : List Char
  source_file : List Char

/-- A scored stage result (market, team or financial agent output). -/
structure StageResult where
  score : Int

/-- The memo agent's result fields read by the orchestrator. -/
structure MemoResult where
  memo : List Char
  recommendation : List Char
  generated_at : List Char

/-- The record returned by `analyze_pitch_deck` (src/core/orchestrator.py
lines 116-138). -/
structure FinalResult where
  company_name : List Char
  source_file : List Char
  final_score : Int
  recommendation : List Char
  memo : List Char
  score_market : Int
  score_team : Int
  score_financial : Int
  score_total : Int
  generated_at : List Char

/-- Top-level failure modes of `analyze_pitch_deck`: the eager
`FileNotFoundError` (line 60) or a propagated stage exception (line 152). -/
inductive AnalysisError where
  | fileNotFound : List Char → AnalysisError
  | stageFailure : List Char → AnalysisError
deriving DecidableEq

/-- The orchestrator-level effects, in the order `analyze_pitch_deck` performs
them. -/
inductive PipelineEvent where
  | ingestion
  | enrichment
  | factBuild
  | marketStage
  | teamStage
  | financialStage
  | riskStage
  | memoStage
  | persistStructured
  | persistAnalysis
  | persistMemo
deriving DecidableEq

/-- One collaborator call inside the orchestrator's try block: record the
event, and on failure propagate the exception (ending the run). -/
def pipelineStep {α β : Type} (ev : PipelineEvent) (x : Except (List Char) α)
    (k : α → List PipelineEvent × Except AnalysisError β) :
    List PipelineEvent × Except AnalysisError β :=
  match x with
  | .error e => ([ev], .error (.stageFailure e))
  | .ok a =>
    let r := k a
    (ev :: r.1, r.2)

/-- `VentureScopeOrchestrator.analyze_pitch_deck` (src/core/orchestrator.py
lines 52-152): the path-existence guard, the six sequential stages, final
score computation, persistence, and result assembly.  Collaborators are
passed in as `Except`-valued functions; the returned event list records which
collaborator calls ran. -/
def analyze_pitch_deck (fsExists : List Char → Bool)
    (docAgent : List Char → Except (List Char) CompanyData)
    (enrich : CompanyData → Except (List Char) CompanyData)
    (buildFacts : CompanyData → Except (List Char) Unit)
    (marketAgent teamAgent financialAgent : CompanyData → Except (List Char) StageResult)
    (riskAgent : CompanyData → StageResult → StageResult → StageResult →
      Except (List Char) RiskOutput)
    (memoAgent : CompanyData → RiskOutput → Int → Except (List Char) MemoResult)
    (saveStructured saveAnalysis saveMemo : Except (List Char) Unit)
    (path : List Char) : List PipelineEvent × Except AnalysisError FinalResult :=
  if fsExists path then
    pipelineStep .ingestion (docAgent path) fun cd0 =>
    pipelineStep .enrichment (enrich cd0) fun cd =>
    pipelineStep .factBuild (buildFacts cd) fun _ =>
    pipelineStep .marketStage (marketAgent cd) fun mk =>
    pipelineStep .teamStage (teamAgent cd) fun tm =>
    pipelineStep .financialStage (financialAgent cd) fun fin =>
    pipelineStep .riskStage (riskAgent cd mk tm fin) fun rk =>
    let fs := calculate_final_score mk.score tm.score fin.score rk.risk_level
    pipelineStep .memoStage (memoAgent cd rk fs) fun mr =>
    pipelineStep .persistStructured saveStructured fun _ =>
    pipelineStep .persistAnalysis saveAnalysis fun _ =>
    pipelineStep .persistMemo saveMemo fun _ =>
    ([], .ok
      { company_name := cd.company_name
        source_file := cd.source_file
        final_score := fs
        recommendation := mr.recommendation
        memo := mr.memo
        score_market := mk.score
        score_team := tm.score
        score_financial := fin.score
        score_total := fs
        generated_at := mr.generated_at })
  else ([], .error (.fileNotFound path))

/-- The full event sequence of a successful run. -/
def fullPipeline : List PipelineEvent :=
  [.ingestion, .enrichment, .factBuild, .marketStage, .teamStage, .financialStage,
    .riskStage, .memoStage, .persistStructured, .persistAnalysis, .persistMemo]

/-- `List.find?` only depends on the predicate's values on the list. -/
theorem find?_congrOn {α : Type} (l : List α) (p q : α → Bool)
    (h : ∀ x ∈ l, p x = q x) : l.find? p = l.find? q := by
  induction l with
  | nil => rfl
  | cons a t ih =>
    have ha := h a (List.mem_cons_self a t)
    cases hpa : p a with
    | false =>
      rw [List.find?_cons_of_neg _ (by simp [hpa]),
        List.find?_cons_of_neg _ (by simp [← ha, hpa])]
      exact ih fun x hx => h x (List.mem_cons_of_mem _ hx)
    | true =>
      rw [List.find?_cons_of_pos _ hpa, List.find?_cons_of_pos _ (by rw [← ha]; exact hpa)]

/-- Indices in `enumFrom j` are at least `j`. -/
theorem le_fst_of_mem_enumFrom {α : Type} :
    ∀ (s : List α) (j : Nat) (p : Nat × α), p ∈ s.enumFrom j → j ≤ p.1 := by
  intro s
  induction s with
  | nil => intro j p h; simp [List.enumFrom] at h
  | cons a t ih =>
    intro j p h
    rcases List.mem_cons.mp h with h1 | h2
    · subst h1; exact Nat.le_refl j
    · exact Nat.le_of_succ_le (ih (j + 1) p h2)

/-- The inner scan returns the stripped form of the first indexed line
accepted by `sectionLineOk`. -/
theorem sectionInner_eq (s : List (List Char)) : ∀ j, sectionInner s j =
    ((s.enumFrom j).find? (fun p => sectionLineOk p.1 p.2)).map (fun p => strip p.2) := by
  induction s with
  | nil => intro j; rfl
  | cons l rest ih =>
    intro j
    cases h : sectionLineOk j l
    · simp [sectionInner, List.enumFrom, List.find?, h, ih (j + 1)]
    · simp [sectionInner, List.enumFrom, List.find?, h]

/-- If the inner scan from an index finds nothing, the outer scan from that
index finds nothing either (later inner scans only see fewer lines). -/
theorem sectionOuter_eq_none (header : List Char) :
    ∀ (s : List (List Char)) (j : Nat),
      sectionInner s j = none → sectionOuter header s j = none := by
  intro s
  induction s with
  | nil => intro j _; rfl
  | cons l rest ih =>
    intro j h
    cases hl : sectionLineOk j l
    · have h2 : sectionInner rest (j + 1) = none := by simpa [sectionInner, hl] using h
      simp [sectionOuter, h2, ih (j + 1) h2]
    · simp [sectionInner, hl] at h

/-- Characterization of the outer scan of `_extract_section`: it returns the
stripped form of the first line (at global index `p.1`) that passes
`sectionLineOk` and is preceded, within the scanned suffix, by a line
containing the header. -/
theorem sectionOuter_eq (header : List Char) :
    ∀ (s : List (List Char)) (i : Nat), sectionOuter header s i =
      ((s.enumFrom i).find? (fun p =>
          ((s.take (p.1 - i)).any (fun l2 => isSubstr header l2)) && sectionLineOk p.1 p.2)).map
        (fun p => strip p.2) := by
  intro s
  induction s with
  | nil => intro i; rfl
  | cons l rest ih =>
    intro i
    have hhead : (((l :: rest).take (i - i)).any (fun l2 => isSubstr header l2)) = false := by
      simp
    have hstep : ((l :: rest).enumFrom i).find? (fun p =>
          (((l :: rest).take (p.1 - i)).any (fun l2 => isSubstr header l2)) &&
            sectionLineOk p.1 p.2) =
        (rest.enumFrom (i + 1)).find? (fun p =>
          (isSubstr header l || ((rest.take (p.1 - (i + 1))).any (fun l2 => isSubstr header l2))) &&
            sectionLineOk p.1 p.2) := by
      rw [show (l :: rest).enumFrom i = (i, l) :: rest.enumFrom (i + 1) from rfl]
      rw [List.find?_cons_of_neg _ (by simp [hhead])]
      apply find?_congrOn
      intro p hp
      have h1 : i + 1 ≤ p.1 := le_fst_of_mem_enumFrom rest (i + 1) p hp
      have h2 : p.1 - i = (p.1 - (i + 1)) + 1 := by omega
      rw [h2]
      rfl
    rw [hstep]
    cases hsub : isSubstr header l
    · have hout : sectionOuter header (l :: rest) i = sectionOuter header rest (i + 1) := by
        simp [sectionOuter, hsub]
      rw [hout, ih (i + 1)]
      rfl
    · have hpred : (rest.enumFrom (i + 1)).find? (fun p =>
            (true || ((rest.take (p.1 - (i + 1))).any (fun l2 => isSubstr header l2))) &&
              sectionLineOk p.1 p.2) =
          (rest.enumFrom (i + 1)).find? (fun p => sectionLineOk p.1 p.2) := by
        apply find?_congrOn
        intro p _
        rfl
      rw [hpred]
      cases hinner : sectionInner rest (i + 1) with
      | some r =>
        have : sectionOuter header (l :: rest) i = some r := by
          simp [sectionOuter, hsub, hinner]
        rw [this, ← sectionInner_eq, hinner]
      | none =>
        have houter : sectionOuter header rest (i + 1) = none :=
          sectionOuter_eq_none header rest (i + 1) hinner
        have : sectionOuter header (l :: rest) i = none := by
          simp [sectionOuter, hsub, hinner, houter]
        rw [this, ← sectionInner_eq, hinner]

/-- `dropWhile` drops exactly the length of `takeWhile`. -/
theorem dropWhile_eq_drop_len_takeWhile {α : Type} (p : α → Bool) :
    ∀ l : List α, l.dropWhile p = l.drop (l.takeWhile p).length := by
  intro l
  induction l with
  | nil => rfl
  | cons a t ih =>
    cases h : p a
    · simp [List.dropWhile, List.takeWhile, h]
    · simp [List.dropWhile, List.takeWhile, h, ih]

/-- The operational matcher of the score regex agrees with the declarative
maximal-digit-run matcher. -/
theorem scoreMatchAt_eq_spec (l : List Char) : scoreMatchAt l = specScoreMatchAt l := by
  cases l with
  | nil => rfl
  | cons c t =>
    cases hc : c.isDigit
    · have htw : (c :: t).takeWhile Char.isDigit = [] := by simp [List.takeWhile, hc]
      simp [scoreMatchAt, specScoreMatchAt, hc, htw]
    · have htw : (c :: t).takeWhile Char.isDigit = c :: t.takeWhile Char.isDigit := by
        simp [List.takeWhile, hc]
      simp [scoreMatchAt, specScoreMatchAt, hc, htw,
        dropWhile_eq_drop_len_takeWhile Char.isDigit (c :: t)]

/-- The left-to-right regex search equals a `find?` over all suffixes. -/
theorem scoreSearch_eq_find (l : List Char) :
    scoreSearch l =
      (l.tails.find? (fun t => (specScoreMatchAt t).isSome)).bind specScoreMatchAt := by
  induction l with
  | nil => simp [scoreSearch, List.find?, specScoreMatchAt]
  | cons c t ih =>
    rw [List.tails_cons]
    cases hm : scoreMatchAt (c :: t) with
    | some n =>
      have hs : specScoreMatchAt (c :: t) = some n := by rw [← scoreMatchAt_eq_spec]; exact hm
      simp [scoreSearch, hm, List.find?, hs]
    | none =>
      have hs : specScoreMatchAt (c :: t) = none := by rw [← scoreMatchAt_eq_spec]; exact hm
      simp [scoreSearch, hm, List.find?, hs, ih]

/-- C5 counterexample: on `"1005/25"` the code matches the full digit run
`1005` and clamps it to 25, while the claim's 1-3 digit pattern first matches
`005` followed by `/25`, giving 5. -/
theorem c5_counterexample :
    extract_score "1005/25".toList = 25 ∧
    claimExtractScore "1005/25".toList = 5 ∧
    extract_score "1005/25".toList ≠ claimExtractScore "1005/25".toList := by
  exact ⟨by decide, by decide, by decide⟩

/-- C5 (amended): score extraction matches the first occurrence of a maximal
run of one or more digits followed (after optional whitespace) by "/25",
"points", or "out of 25" (case-insensitive), returns that number clamped to
[0,25], and returns 15 when no such pattern occurs in the text. -/
theorem c5_score_extraction_amended (text : List Char) :
    extract_score text =
      match (text.tails.find? (fun t => (specScoreMatchAt t).isSome)).bind specScoreMatchAt with
      | some n => min n 25
      | none => 15 := by
  unfold extract_score
  rw [scoreSearch_eq_find]
  cases (text.tails.find? (fun t => (specScoreMatchAt t).isSome)).bind specScoreMatchAt with
  | none => rfl
  | some n => simp

/-- Once the header has been seen, the accumulator version of the collection
loop agrees with the direct version. -/
theorem listScanAux_eq_specCollect (header : List Char) :
    ∀ (lines : List (List Char)) (acc : List (List Char)),
      listScanAux header lines true acc =
        acc.reverse ++ specCollect header lines (!acc.isEmpty) := by
  intro lines
  induction lines with
  | nil => intro acc; simp [listScanAux, specCollect]
  | cons l rest ih =>
    intro acc
    cases h1 : isSubstr header l
    · cases h2 : breakLineB l
      · cases h3 : isBulletLine (strip l)
        · cases h4 : acc.isEmpty
          · simp [listScanAux, specCollect, h1, h2, h3, h4, ih]
          · have hacc : acc = [] := List.isEmpty_iff.mp h4
            subst hacc
            cases h5 : isImplicitItem (strip l)
            · simp [listScanAux, specCollect, h1, h2, h3, h5, ih]
            · simp [listScanAux, specCollect, h1, h2, h3, h5, ih]
        · simp [listScanAux, specCollect, h1, h2, h3, ih, List.append_assoc]
      · simp [listScanAux, specCollect, h1, h2]
    · simp [listScanAux, specCollect, h1, ih]

/-- Before the header has been seen, the loop only searches for the first
line containing the header and collects nothing. -/
theorem listScanAux_false_eq (header : List Char) :
    ∀ lines : List (List Char),
      listScanAux header lines false [] =
        match specAfterHeader header lines with
        | none => []
        | some rest => listScanAux header rest true [] := by
  intro lines
  induction lines with
  | nil => simp [listScanAux, specAfterHeader]
  | cons l rest ih =>
    cases h1 : isSubstr header l
    · simp [listScanAux, specAfterHeader, h1, ih]
    · simp [listScanAux, specAfterHeader, h1]

/-- C6 counterexample: with text `"RISKS\n- a\n5 big. risk\n- b"` and header
`"RISKS"`, the code stops at `"5 big. risk"` (first non-space char is a digit
and the line contains a period) and returns `["a"]`, while the claim's rule
only stops at digits-followed-by-period headers and yields `["a", "b"]`. -/
theorem c6_counterexample :
    extract_list_section "RISKS\n- a\n5 big. risk\n- b".toList "RISKS".toList =
      ["a".toList] ∧
    claimListExtract "RISKS\n- a\n5 big. risk\n- b".toList "RISKS".toList =
      ["a".toList, "b".toList] ∧
    extract_list_section "RISKS\n- a\n5 big. risk\n- b".toList "RISKS".toList ≠
      claimListExtract "RISKS\n- a\n5 big. risk\n- b".toList "RISKS".toList := by
  exact ⟨by decide, by decide, by decide⟩

/-- C6 (amended): list extraction collects every line strictly after the
first line containing the header, stopping at the first line whose stripped
form starts with a digit and that contains a period anywhere; further lines
containing the header are skipped; lines prefixed with "-", "*", or the
bullet glyph sequence are collected with the first character of the prefix
removed and the remainder trimmed; a lone unprefixed non-empty line is
accepted as an implicit first item only while no items have been collected;
if zero items are collected (or the header is absent) the result is
`["None identified"]`. -/
theorem c6_list_extraction_amended (text header : List Char) :
    extract_list_section text header = specListExtract text header := by
  unfold extract_list_section specListExtract
  rw [listScanAux_false_eq]
  cases h : specAfterHeader header (splitLines text) with
  | none => simp
  | some rest => simp [listScanAux_eq_specCollect]

/-- C4 counterexample: on `"Header\n1 thing"` the code returns the sentinel
(the line `"1 thing"` is skipped because it starts with the decimal string of
its own line index 1), while the claim's description returns `"1 thing"`. -/
theorem c4_counterexample :
    extract_section "Header\n1 thing".toList "Header".toList = "Not specified".toList ∧
    claimExtractSection "Header\n1 thing".toList "Header".toList = "1 thing".toList ∧
    extract_section "Header\n1 thing".toList "Header".toList ≠
      claimExtractSection "Header\n1 thing".toList "Header".toList := by
  exact ⟨by decide, by decide, by decide⟩

/-- C4 (amended): section extraction returns the trimmed form of the first
line that comes strictly after some line containing the header, is non-empty
after trimming, and does not start with the decimal representation of its own
0-based line index; it returns "Not specified" when no such line exists,
including for the empty string and an absent header. -/
theorem c4_section_extraction_amended (text header : List Char) :
    extract_section text header =
      ((((splitLines text).enumFrom 0).find? (fun p =>
          (((splitLines text).take p.1).any (fun l2 => isSubstr header l2)) &&
            sectionLineOk p.1 p.2)).map (fun p => strip p.2)).getD
        ("Not specified".toList) := by
  unfold extract_section
  rw [sectionOuter_eq]
  simp only [Nat.sub_zero]

/-- C1: the recommendation equals the spec's band function — PASS whenever
critical_flags is non-empty, else INVEST at 80+, STRONG CONSIDER at 65..79,
CONSIDER at 50..64, PASS below 50 — and the stated boundary values behave as
claimed (80 INVEST, 79 and 65 STRONG CONSIDER, 64 and 50 CONSIDER, 49 PASS). -/
theorem c1_recommendation_thresholds (s : Int) (flags : List (List Char)) :
    determine_recommendation s flags = claimRecommendation s flags ∧
    determine_recommendation s ["fraud".toList] = "PASS".toList ∧
    determine_recommendation 80 [] = "INVEST".toList ∧
    determine_recommendation 79 [] = "STRONG CONSIDER".toList ∧
    determine_recommendation 65 [] = "STRONG CONSIDER".toList ∧
    determine_recommendation 64 [] = "CONSIDER".toList ∧
    determine_recommendation 50 [] = "CONSIDER".toList ∧
    determine_recommendation 49 [] = "PASS".toList := by
  refine ⟨?_, ?_, by decide, by decide, by decide, by decide, by decide, by decide⟩
  · cases flags with
    | nil => simp [determine_recommendation, claimRecommendation]
    | cons f t => simp [determine_recommendation, claimRecommendation]
  · simp [determine_recommendation]

/-- C3: the derived risk level follows the spec's first-match rules (any
non-sentinel critical entry gives CRITICAL; else 3+ non-sentinel high risks
give HIGH, 1+ give MEDIUM, 0 give LOW), and with only-sentinel critical flags
exactly 3 non-sentinel high risks give HIGH, exactly 2 give MEDIUM and 0 give
LOW. -/
theorem c3_risk_level_rules (critical high : List (List Char)) :
    determine_risk_level critical high = claimRiskLevel critical high ∧
    determine_risk_level ["bad".toList] [] = "CRITICAL".toList ∧
    determine_risk_level [sentinel] ["a".toList, "b".toList, "c".toList] = "HIGH".toList ∧
    determine_risk_level [sentinel] ["a".toList, "b".toList] = "MEDIUM".toList ∧
    determine_risk_level [sentinel] [] = "LOW".toList := by
  refine ⟨?_, by decide, by decide, by decide, by decide⟩
  simp [determine_risk_level, claimRiskLevel, List.countP_eq_length_filter]

/-- C2: the final score is exactly market + team + financial + the execution
score looked up from the fixed table (LOW 25, MEDIUM 18, HIGH 12, CRITICAL 5,
default 15), clamped to [0,100]; the result always lies in [0,100]. -/
theorem c2_final_score_formula (m t f : Int) (risk_level : List Char) :
    calculate_final_score m t f risk_level =
      min (max (m + t + f + claimExecTable risk_level) 0) 100 ∧
    0 ≤ calculate_final_score m t f risk_level ∧
    calculate_final_score m t f risk_level ≤ 100 := by
  refine ⟨rfl, ?_, ?_⟩
  · exact le_min (le_max_right _ _) (by norm_num)
  · exact min_le_right _ _

/-- C7: with a base score in [0,25], the team-size adjustment (−5 floored at
0 for an empty team, +2 capped at 25 for three or more members) and the
financial +3 revenue / +2 growth bonuses each move the score by at most 5 and
never push it outside [0,25]. -/
theorem c7_score_adjustment_bounds (base : Int) (team_members : List TeamMember)
    (revenue growth_rate : Bool) (h0 : 0 ≤ base) (h25 : base ≤ 25) :
    (0 ≤ calculate_team_score base team_members ∧
      calculate_team_score base team_members ≤ 25 ∧
      base - 5 ≤ calculate_team_score base team_members ∧
      calculate_team_score base team_members ≤ base + 5) ∧
    (0 ≤ calculate_financial_score base revenue growth_rate ∧
      calculate_financial_score base revenue growth_rate ≤ 25 ∧
      base ≤ calculate_financial_score base revenue growth_rate ∧
      calculate_financial_score base revenue growth_rate ≤ base + 5) := by
  constructor
  · unfold calculate_team_score
    split_ifs <;> omega
  · unfold calculate_financial_score
    cases revenue <;> cases growth_rate <;> simp <;> omega

/-- C7 witness: base score 20 with an empty team and both financial metrics
present. -/
theorem c7_score_adjustment_bounds_witness :
    (0 : Int) ≤ 20 ∧ (20 : Int) ≤ 25 ∧
    ((0 ≤ calculate_team_score 20 [] ∧ calculate_team_score 20 [] ≤ 25 ∧
        (20 : Int) - 5 ≤ calculate_team_score 20 [] ∧
        calculate_team_score 20 [] ≤ 20 + 5) ∧
      (0 ≤ calculate_financial_score 20 true true ∧
        calculate_financial_score 20 true true ≤ 25 ∧
        (20 : Int) ≤ calculate_financial_score 20 true true ∧
        calculate_financial_score 20 true true ≤ 20 + 5)) :=
  ⟨by norm_num, by norm_num,
    c7_score_adjustment_bounds 20 [] true true (by norm_num) (by norm_num)⟩

/-- C8: when the generation call fails, the memo stage returns the fallback
memo; the fallback is non-empty and contains the literal final score and the
literal recommendation as substrings, by pure string formatting. -/
theorem c8_fallback_memo (e company_name : List Char) (final_score : Nat)
    (recommendation date : List Char) :
    generate_memo (Except.error e) company_name final_score recommendation date =
      generate_fallback_memo company_name final_score recommendation date ∧
    generate_fallback_memo company_name final_score recommendation date ≠ [] ∧
    (Nat.repr final_score).toList <:+:
      generate_fallback_memo company_name final_score recommendation date ∧
    recommendation <:+:
      generate_fallback_memo company_name final_score recommendation date := by
  refine ⟨rfl, ?_, ?_, ?_⟩
  · intro h
    exact List.cons_ne_nil _ _ h
  · exact ⟨"# Investment Memo: ".toList ++ company_name ++
      "\n\n## Executive Summary\n**Investment Score:** ".toList,
      "/100 | **Recommendation:** ".toList ++ recommendation ++
        "\n\nAnalysis completed but detailed memo generation encountered an error.\nPlease review individual agent reports for detailed insights.\n\n## Recommendation\n**".toList ++
        recommendation ++
        "**\n\nBased on quantitative scoring: ".toList ++ (Nat.repr final_score).toList ++
        "/100\n\n---\n*Memo generated by VentureScope AI | ".toList ++ date ++
        "*\n".toList,
      by simp [generate_fallback_memo, List.append_assoc]⟩
  · exact ⟨"# Investment Memo: ".toList ++ company_name ++
      "\n\n## Executive Summary\n**Investment Score:** ".toList ++
      (Nat.repr final_score).toList ++
      "/100 | **Recommendation:** ".toList,
      "\n\nAnalysis completed but detailed memo generation encountered an error.\nPlease review individual agent reports for detailed insights.\n\n## Recommendation\n**".toList ++
        recommendation ++
        "**\n\nBased on quantitative scoring: ".toList ++ (Nat.repr final_score).toList ++
        "/100\n\n---\n*Memo generated by VentureScope AI | ".toList ++ date ++
        "*\n".toList,
      by simp [generate_fallback_memo, List.append_assoc]⟩

/-- C10: when the risk stage's LLM call fails, the fallback assessment's only
critical flag is the non-sentinel "Analysis failed - unable to assess risks",
the derived risk level is CRITICAL, and the recommendation is PASS for every
final score. -/
theorem c10_risk_fallback_veto (e : List Char) (score : Int) :
    (risk_process (Except.error e)).critical_flags =
      ["Analysis failed - unable to assess risks".toList] ∧
    (risk_process (Except.error e)).risk_level = "CRITICAL".toList ∧
    determine_recommendation score (risk_process (Except.error e)).critical_flags =
      "PASS".toList := by
  exact ⟨rfl, rfl, rfl⟩

/-- C9: when the document path does not exist, `analyze_pitch_deck` fails
with the not-found error before any collaborator call (no ingestion, no stage,
no persistence event); when it exists, the run either returns a complete
`FinalResult` having executed the full event sequence, or propagates the
first stage failure — there is no partial result at the top level. -/
theorem c9_analyze_control_flow (fsExists : List Char → Bool)
    (docAgent : List Char → Except (List Char) CompanyData)
    (enrich : CompanyData → Except (List Char) CompanyData)
    (buildFacts : CompanyData → Except (List Char) Unit)
    (marketAgent teamAgent financialAgent : CompanyData → Except (List Char) StageResult)
    (riskAgent : CompanyData → StageResult → StageResult → StageResult →
      Except (List Char) RiskOutput)
    (memoAgent : CompanyData → RiskOutput → Int → Except (List Char) MemoResult)
    (saveStructured saveAnalysis saveMemo : Except (List Char) Unit)
    (path : List Char) :
    (fsExists path = false →
      analyze_pitch_deck fsExists docAgent enrich buildFacts marketAgent teamAgent
          financialAgent riskAgent memoAgent saveStructured saveAnalysis saveMemo path =
        ([], .error (.fileNotFound path))) ∧
    (fsExists path = true →
      (∃ r : FinalResult,
        (analyze_pitch_deck fsExists docAgent enrich buildFacts marketAgent teamAgent
            financialAgent riskAgent memoAgent saveStructured saveAnalysis saveMemo
            path).2 = .ok r ∧
        (analyze_pitch_deck fsExists docAgent enrich buildFacts marketAgent teamAgent
            financialAgent riskAgent memoAgent saveStructured saveAnalysis saveMemo
            path).1 = fullPipeline) ∨
      (∃ e : List Char,
        (analyze_pitch_deck fsExists docAgent enrich buildFacts marketAgent teamAgent
            financialAgent riskAgent memoAgent saveStructured saveAnalysis saveMemo
            path).2 = .error (.stageFailure e))) := by
  constructor
  · intro h
    simp [analyze_pitch_deck, h]
  · intro h
    unfold analyze_pitch_deck
    simp only [h, if_true]
    cases hdoc : docAgent path with
    | error e => exact Or.inr ⟨e, by simp [pipelineStep, *]⟩
    | ok cd0 =>
      cases henr : enrich cd0 with
      | error e => exact Or.inr ⟨e, by simp [pipelineStep, *]⟩
      | ok cd =>
        cases hfb : buildFacts cd with
        | error e => exact Or.inr ⟨e, by simp [pipelineStep, *]⟩
        | ok u1 =>
          cases hmk : marketAgent cd with
          | error e => exact Or.inr ⟨e, by simp [pipelineStep, *]⟩
          | ok mk =>
            cases htm : teamAgent cd with
            | error e => exact Or.inr ⟨e, by simp [pipelineStep, *]⟩
            | ok tm =>
              cases hfin : financialAgent cd with
              | error e => exact Or.inr ⟨e, by simp [pipelineStep, *]⟩
              | ok fin =>
                cases hrk : riskAgent cd mk tm fin with
                | error e => exact Or.inr ⟨e, by simp [pipelineStep, *]⟩
                | ok rk =>
                  cases hmr : memoAgent cd rk
                      (calculate_final_score mk.score tm.score fin.score rk.risk_level) with
                  | error e => exact Or.inr ⟨e, by simp [pipelineStep, *]⟩
                  | ok mr =>
                    cases hs1 : saveStructured with
                    | error e => exact Or.inr ⟨e, by simp [pipelineStep, *]⟩
                    | ok u2 =>
                      cases hs2 : saveAnalysis with
                      | error e => exact Or.inr ⟨e, by simp [pipelineStep, *]⟩
                      | ok u3 =>
                        cases hs3 : saveMemo with
                        | error e => exact Or.inr ⟨e, by simp [pipelineStep, *]⟩
                        | ok u4 =>
                          refine Or.inl ⟨FinalResult.mk cd.company_name cd.source_file
                              (calculate_final_score mk.score tm.score fin.score rk.risk_level)
                              mr.recommendation mr.memo mk.score tm.score fin.score
                              (calculate_final_score mk.score tm.score fin.score rk.risk_level)
                              mr.generated_at, ?_, ?_⟩ <;>
                            simp [pipelineStep, fullPipeline, *]

/-- C9 witness: with a filesystem rejecting every path the run fails fast
with the not-found error and an empty event list, and with an
always-succeeding filesystem and collaborators the run completes. -/
theorem c9_analyze_control_flow_witness :
    analyze_pitch_deck (fun _ => false)
        (fun _ => Except.ok (CompanyData.mk "c".toList "s".toList))
        (fun cd => Except.ok cd) (fun _ => Except.ok ())
        (fun _ => Except.ok (StageResult.mk 20)) (fun _ => Except.ok (StageResult.mk 21))
        (fun _ => Except.ok (StageResult.mk 22))
        (fun _ _ _ _ => Except.ok (RiskOutput.mk "LOW".toList []))
        (fun _ _ _ => Except.ok (MemoResult.mk "memo".toList "INVEST".toList "now".toList))
        (Except.ok ()) (Except.ok ()) (Except.ok ()) "x".toList =
      ([], Except.error (AnalysisError.fileNotFound "x".toList)) ∧
    ((∃ r : FinalResult,
        (analyze_pitch_deck (fun _ => true)
            (fun _ => Except.ok (CompanyData.mk "c".toList "s".toList))
            (fun cd => Except.ok cd) (fun _ => Except.ok ())
            (fun _ => Except.ok (StageResult.mk 20)) (fun _ => Except.ok (StageResult.mk 21))
            (fun _ => Except.ok (StageResult.mk 22))
            (fun _ _ _ _ => Except.ok (RiskOutput.mk "LOW".toList []))
            (fun _ _ _ => Except.ok (MemoResult.mk "memo".toList "INVEST".toList "now".toList))
            (Except.ok ()) (Except.ok ()) (Except.ok ()) "x".toList).2 = Except.ok r ∧
        (analyze_pitch_deck (fun _ => true)
            (fun _ => Except.ok (CompanyData.mk "c".toList "s".toList))
            (fun cd => Except.ok cd) (fun _ => Except.ok ())
            (fun _ => Except.ok (StageResult.mk 20)) (fun _ => Except.ok (StageResult.mk 21))
            (fun _ => Except.ok (StageResult.mk 22))
            (fun _ _ _ _ => Except.ok (RiskOutput.mk "LOW".toList []))
            (fun _ _ _ => Except.ok (MemoResult.mk "memo".toList "INVEST".toList "now".toList))
            (Except.ok ()) (Except.ok ()) (Except.ok ()) "x".toList).1 = fullPipeline) ∨
      (∃ e : List Char,
        (analyze_pitch_deck (fun _ => true)
            (fun _ => Except.ok (CompanyData.mk "c".toList "s".toList))
            (fun cd => Except.ok cd) (fun _ => Except.ok ())
            (fun _ => Except.ok (StageResult.mk 20)) (fun _ => Except.ok (StageResult.mk 21))
            (fun _ => Except.ok (StageResult.mk 22))
            (fun _ _ _ _ => Except.ok (RiskOutput.mk "LOW".toList []))
            (fun _ _ _ => Except.ok (MemoResult.mk "memo".toList "INVEST".toList "now".toList))
            (Except.ok ()) (Except.ok ()) (Except.ok ()) "x".toList).2 =
          Except.error (AnalysisError.stageFailure e))) :=
  ⟨(c9_analyze_control_flow (fun _ => false)
      (fun _ => Except.ok (CompanyData.mk "c".toList "s".toList))
      (fun cd => Except.ok cd) (fun _ => Except.ok ())
      (fun _ => Except.ok (StageResult.mk 20)) (fun _ => Except.ok (StageResult.mk 21))
      (fun _ => Except.ok (StageResult.mk 22))
      (fun _ _ _ _ => Except.ok (RiskOutput.mk "LOW".toList []))
      (fun _ _ _ => Except.ok (MemoResult.mk "memo".toList "INVEST".toList "now".toList))
      (Except.ok ()) (Except.ok ()) (Except.ok ()) "x".toList).1 rfl,
    (c9_analyze_control_flow (fun _ => true)
      (fun _ => Except.ok (CompanyData.mk "c".toList "s".toList))
      (fun cd => Except.ok cd) (fun _ => Except.ok ())
      (fun _ => Except.ok (StageResult.mk 20)) (fun _ => Except.ok (StageResult.mk 21))
      (fun _ => Except.ok (StageResult.mk 22))
      (fun _ _ _ _ => Except.ok (RiskOutput.mk "LOW".toList []))
      (fun _ _ _ => Except.ok (MemoResult.mk "memo".toList "INVEST".toList "now".toList))
      (Except.ok ()) (Except.ok ()) (Except.ok ()) "x".toList).2 rfl⟩
